import Mathlib

/-!
Verification of the monitoring and configuration-selection subsystem of the
Yukon module firmware (`pimoroni_yukon.modules.dual_motor.DualMotorModule`
and `pimoroni_yukon.modules.quad_servo_reg.QuadServoRegModule`).

The embedding is shallow:
* Python floats are modelled by an extended-rational type `XFloat`
  (`-inf`, `+inf`, finite rationals), since the code only ever compares,
  takes `max`/`min`, adds and divides temperature samples;
* the mutable per-module aggregator state becomes an explicit state record
  threaded through `monitor` / `process_readings` / `clear_readings`;
* a Python `raise` becomes an `Option` error component returned together
  with the state reached at the raise point — mutations that the source
  performs before a raise would be visible in that state, mutations after
  a raise are not, mirroring the statement order of the source;
* logging warnings are modelled as an explicit list of emitted events.
-/

namespace Yukon

/-- Extended rational values modelling the Python floats used by the
aggregators, which are only ever created as finite readings or as the
seeds `float(-inf)` / `float(inf)`. -/
inductive XFloat where
  | ninf : XFloat
  | pinf : XFloat
  | fin : ℚ → XFloat
deriving DecidableEq, Repr

/-- Python `max` on the modelled values. -/
def xmax : XFloat → XFloat → XFloat
  | .ninf, b => b
  | a, .ninf => a
  | .pinf, _ => .pinf
  | _, .pinf => .pinf
  | .fin a, .fin b => .fin (max a b)

/-- Python `min` on the modelled values. -/
def xmin : XFloat → XFloat → XFloat
  | .pinf, b => b
  | a, .pinf => a
  | .ninf, _ => .ninf
  | _, .ninf => .ninf
  | .fin a, .fin b => .fin (min a b)

/-- The two fatal error classes raised by `monitor()`
(`pimoroni_yukon.errors.FaultError` / `OverTemperatureError`). -/
inductive MonitorError where
  | faultError : MonitorError
  | overTemperatureError : MonitorError
deriving DecidableEq, Repr

/-- The programming-error class (`RuntimeError`, the spec's `InvalidState`)
raised by `set_current_limit` while the output stage is enabled. -/
inductive ConfigError where
  | invalidState : ConfigError
deriving DecidableEq, Repr

namespace DualMotorModule

/-- `DualMotorModule.TEMPERATURE_THRESHOLD = 70.0` -/
abbrev TEMPERATURE_THRESHOLD : ℚ := 70

abbrev CURRENT_LIMIT_1 : ℚ := 0.161
abbrev CURRENT_LIMIT_2 : ℚ := 0.251
abbrev CURRENT_LIMIT_3 : ℚ := 0.444
abbrev CURRENT_LIMIT_4 : ℚ := 0.786
abbrev CURRENT_LIMIT_5 : ℚ := 1.143
abbrev CURRENT_LIMIT_6 : ℚ := 1.611
abbrev CURRENT_LIMIT_7 : ℚ := 1.890
abbrev CURRENT_LIMIT_8 : ℚ := 2.153
abbrev CURRENT_LIMIT_9 : ℚ := 2.236
abbrev MIN_CURRENT_LIMIT : ℚ := CURRENT_LIMIT_1
abbrev MAX_CURRENT_LIMIT : ℚ := CURRENT_LIMIT_9

/-- The ascending ordered table `__current_limit_states`: each current limit
paired with the `(vref1, vref2)` pin request, where `-1` means input
(high-impedance), `0` output-low and `1` output-high. -/
def current_limit_states : List (ℚ × ℤ × ℤ) :=
  [(CURRENT_LIMIT_1, 0, 0),
   (CURRENT_LIMIT_2, -1, 0),
   (CURRENT_LIMIT_3, 0, -1),
   (CURRENT_LIMIT_4, 1, 0),
   (CURRENT_LIMIT_5, -1, -1),
   (CURRENT_LIMIT_6, 0, 1),
   (CURRENT_LIMIT_7, 1, -1),
   (CURRENT_LIMIT_8, -1, 1),
   (CURRENT_LIMIT_9, 1, 1)]

/-- The search loop of `set_current_limit`: walk the ascending table, keep the
last entry whose limit is not above `amps`, stop at the first entry whose
limit exceeds `amps` (`if limit > amps: break`). -/
def select_loop (chosen : ℚ × ℤ × ℤ) (amps : ℚ) : List (ℚ × ℤ × ℤ) → ℚ × ℤ × ℤ
  | [] => chosen
  | e :: rest => if amps < e.1 then chosen else select_loop e amps rest

/-- The Threshold Selector: the pure selection part of `set_current_limit`,
started from the minimum entry `(MIN_CURRENT_LIMIT, states[MIN])`. -/
def select (amps : ℚ) : ℚ × ℤ × ℤ :=
  select_loop (MIN_CURRENT_LIMIT, 0, 0) amps current_limit_states

/-- The three physical configurations a vref pin can be put in by
`set_current_limit`. -/
inductive PinMode where
  | hiZ : PinMode
  | outLow : PinMode
  | outHigh : PinMode
deriving DecidableEq, Repr

/-- Translate one component of a pin-state pair to the pin configuration
applied by `set_current_limit` (lines 118-130 of the source): `-1` becomes
input/high-impedance, `0` output-low, anything else output-high. -/
def pin_mode_for (s : ℤ) : PinMode :=
  if s = -1 then .hiZ
  else if s = 0 then .outLow
  else .outHigh

/-- The configuration-facing state of the module: the enable line, the
stored current limit and the two vref pin configurations. -/
structure ModuleConfig where
  enabled : Bool
  current_limit : ℚ
  vref1 : PinMode
  vref2 : PinMode
deriving DecidableEq, Repr

/-- `DualMotorModule.set_current_limit(amps)`: refuse (raise `RuntimeError`)
while the driver is enabled; otherwise select from the table and apply the
chosen limit and pin states. -/
def set_current_limit (m : ModuleConfig) (amps : ℚ) : Option ConfigError × ModuleConfig :=
  if m.enabled then (some .invalidState, m)
  else
    let chosen := select amps
    (none,
      { m with
        current_limit := chosen.1,
        vref1 := pin_mode_for chosen.2.1,
        vref2 := pin_mode_for chosen.2.2 })

/-- The aggregator state of the dual-motor module: the fields mutated by
`monitor` / `process_readings` / `clear_readings`. -/
structure MotorState where
  fault_triggered : Bool
  max_temperature : XFloat
  min_temperature : XFloat
  avg_temperature : ℚ
  count_avg : ℕ
deriving DecidableEq, Repr

/-- `DualMotorModule.monitor()`, given this cycle's raw observations
(`read_fault()` and `read_temperature()`): raise `FaultError` on a fault,
raise `OverTemperatureError` above 70°C, otherwise accumulate. The returned
state is the one reached at the exit point; both raises happen before every
state update. The user callback is an external side effect with no state
of its own and is not modelled. -/
def monitor (s : MotorState) (fault : Bool) (temperature : ℚ) :
    Option MonitorError × MotorState :=
  if fault = true then (some .faultError, s)
  else if TEMPERATURE_THRESHOLD < temperature then (some .overTemperatureError, s)
  else
    (none,
      { fault_triggered := s.fault_triggered || fault,
        max_temperature := xmax (.fin temperature) s.max_temperature,
        min_temperature := xmin (.fin temperature) s.min_temperature,
        avg_temperature := s.avg_temperature + temperature,
        count_avg := s.count_avg + 1 })

/-- The snapshot returned by `DualMotorModule.get_readings()`, in source
order: `Fault`, `T_max`, `T_min`, `T_avg`. -/
structure Readings where
  fault : Bool
  t_max : XFloat
  t_min : XFloat
  t_avg : ℚ
deriving DecidableEq, Repr

/-- `DualMotorModule.get_readings()`. -/
def get_readings (s : MotorState) : Readings :=
  { fault := s.fault_triggered,
    t_max := s.max_temperature,
    t_min := s.min_temperature,
    t_avg := s.avg_temperature }

/-- `DualMotorModule.process_readings()`: finalize the average in place and
clear the count so a second call acts as a no-op. -/
def process_readings (s : MotorState) : MotorState :=
  if 0 < s.count_avg then
    { s with
      avg_temperature := s.avg_temperature / (s.count_avg : ℚ),
      count_avg := 0 }
  else s

/-- `DualMotorModule.clear_readings()`: reset to interval-start defaults. -/
def clear_readings (_ : MotorState) : MotorState :=
  { fault_triggered := false,
    max_temperature := .ninf,
    min_temperature := .pinf,
    avg_temperature := 0,
    count_avg := 0 }

/-- A sequence of `monitor()` cycles with the given per-cycle observations;
a raise propagates to the caller and stops the run. -/
def run_monitor (s : MotorState) : List (Bool × ℚ) → Option MonitorError × MotorState
  | [] => (none, s)
  | i :: rest =>
    let r := monitor s i.1 i.2
    if r.1.isSome then r else run_monitor r.2 rest

end DualMotorModule

namespace QuadServoRegModule

/-- `QuadServoRegModule.TEMPERATURE_THRESHOLD = 80.0` -/
abbrev TEMPERATURE_THRESHOLD : ℚ := 80

/-- The two one-time warnings `monitor()` can log on a power-good
transition. -/
inductive Warning where
  | powerNotGood : Warning
  | powerGood : Warning
deriving DecidableEq, Repr

/-- The aggregator state of the quad-servo regulated module: the fields
mutated by `monitor` / `process_readings` / `clear_readings`, plus the
edge-detection field `__last_pgood`. -/
structure ServoState where
  last_pgood : Bool
  power_good_throughout : Bool
  max_temperature : XFloat
  min_temperature : XFloat
  avg_temperature : ℚ
  count_avg : ℕ
deriving DecidableEq, Repr

/-- `QuadServoRegModule.monitor()`, given the module's `halt_on_not_pgood`
flag and this cycle's raw observations (`read_power_good()` and
`read_temperature()`): raise `FaultError` when power is not good and halting
is requested, raise `OverTemperatureError` above 80°C, otherwise log a
warning on a power-good transition and accumulate. Both raises happen
before the warning and before every state update. The returned list holds
the warnings logged this cycle. -/
def monitor (halt_on_not_pgood : Bool) (s : ServoState) (pgood : Bool) (temperature : ℚ) :
    Option MonitorError × List Warning × ServoState :=
  if pgood ≠ true ∧ halt_on_not_pgood = true then (some .faultError, [], s)
  else if TEMPERATURE_THRESHOLD < temperature then (some .overTemperatureError, [], s)
  else
    let warns :=
      if s.last_pgood = true ∧ pgood ≠ true then [Warning.powerNotGood]
      else if s.last_pgood ≠ true ∧ pgood = true then [Warning.powerGood]
      else []
    (none, warns,
      { last_pgood := pgood,
        power_good_throughout := s.power_good_throughout && pgood,
        max_temperature := xmax (.fin temperature) s.max_temperature,
        min_temperature := xmin (.fin temperature) s.min_temperature,
        avg_temperature := s.avg_temperature + temperature,
        count_avg := s.count_avg + 1 })

/-- The snapshot returned by `QuadServoRegModule.get_readings()`, in source
order: `PGood`, `T_max`, `T_min`, `T_avg`. -/
structure Readings where
  pgood : Bool
  t_max : XFloat
  t_min : XFloat
  t_avg : ℚ
deriving DecidableEq, Repr

/-- `QuadServoRegModule.get_readings()`. -/
def get_readings (s : ServoState) : Readings :=
  { pgood := s.power_good_throughout,
    t_max := s.max_temperature,
    t_min := s.min_temperature,
    t_avg := s.avg_temperature }

/-- `QuadServoRegModule.process_readings()`: finalize the average in place
and clear the count so a second call acts as a no-op. -/
def process_readings (s : ServoState) : ServoState :=
  if 0 < s.count_avg then
    { s with
      avg_temperature := s.avg_temperature / (s.count_avg : ℚ),
      count_avg := 0 }
  else s

/-- `QuadServoRegModule.clear_readings()`: reset to interval-start defaults.
The edge-detection field `__last_pgood` is not touched by the source's
`clear_readings`, so it is carried over here. -/
def clear_readings (s : ServoState) : ServoState :=
  { last_pgood := s.last_pgood,
    power_good_throughout := true,
    max_temperature := .ninf,
    min_temperature := .pinf,
    avg_temperature := 0,
    count_avg := 0 }

/-- A sequence of `monitor()` cycles with the given per-cycle observations;
a raise propagates to the caller and stops the run. The warnings logged by
the individual cycles are concatenated. -/
def run_monitor (halt_on_not_pgood : Bool) (s : ServoState) :
    List (Bool × ℚ) → Option MonitorError × List Warning × ServoState
  | [] => (none, [], s)
  | i :: rest =>
    let r := monitor halt_on_not_pgood s i.1 i.2
    match r.1 with
    | some e => (some e, r.2.1, r.2.2)
    | none =>
      let rest_r := run_monitor halt_on_not_pgood r.2.2 rest
      (rest_r.1, r.2.1 ++ rest_r.2.1, rest_r.2.2)

/-- The number of edges in a sequence of boolean observations, relative to a
starting previous value: how many cycles observe the condition differently
from the cycle before them. -/
def countTransitions (prev : Bool) : List Bool → ℕ
  | [] => 0
  | b :: rest => (if b ≠ prev then 1 else 0) + countTransitions b rest

end QuadServoRegModule

/-! Helper lemmas about the embedded operations. -/

lemma xmax_fin_ninf (t : ℚ) : xmax (.fin t) .ninf = .fin t := rfl

lemma xmin_fin_pinf (t : ℚ) : xmin (.fin t) .pinf = .fin t := rfl

lemma xmax_fin_fin (t a : ℚ) : xmax (.fin t) (.fin a) = .fin (max t a) := rfl

lemma xmin_fin_fin (t a : ℚ) : xmin (.fin t) (.fin a) = .fin (min t a) := rfl

/-- Folding the per-cycle `max` update over finite samples, starting from a
finite value, computes the rational maximum. -/
lemma foldl_xmax_fin (a : ℚ) (ts : List ℚ) :
    ts.foldl (fun acc x => xmax (.fin x) acc) (XFloat.fin a) = .fin (ts.foldl max a) := by
  induction ts generalizing a with
  | nil => rfl
  | cons t ts ih =>
    rw [List.foldl_cons, List.foldl_cons, xmax_fin_fin, ih, max_comm]

/-- Folding the per-cycle `min` update over finite samples, starting from a
finite value, computes the rational minimum. -/
lemma foldl_xmin_fin (a : ℚ) (ts : List ℚ) :
    ts.foldl (fun acc x => xmin (.fin x) acc) (XFloat.fin a) = .fin (ts.foldl min a) := by
  induction ts generalizing a with
  | nil => rfl
  | cons t ts ih =>
    rw [List.foldl_cons, List.foldl_cons, xmin_fin_fin, ih, min_comm]

/-- Folding the `max` update over a nonempty list of finite samples from the
`-inf` seed computes the rational maximum. -/
lemma foldl_xmax_ninf (t : ℚ) (ts : List ℚ) :
    (t :: ts).foldl (fun acc x => xmax (.fin x) acc) XFloat.ninf = .fin (ts.foldl max t) := by
  rw [List.foldl_cons, xmax_fin_ninf, foldl_xmax_fin]

/-- Folding the `min` update over a nonempty list of finite samples from the
`+inf` seed computes the rational minimum. -/
lemma foldl_xmin_pinf (t : ℚ) (ts : List ℚ) :
    (t :: ts).foldl (fun acc x => xmin (.fin x) acc) XFloat.pinf = .fin (ts.foldl min t) := by
  rw [List.foldl_cons, xmin_fin_pinf, foldl_xmin_fin]

namespace DualMotorModule

set_option maxHeartbeats 1000000 in
/-- Closed form of the selector: a chain of threshold tests against the
second to ninth table entries. -/
lemma select_eq (amps : ℚ) :
    select amps =
      if amps < 0.251 then (0.161, 0, 0)
      else if amps < 0.444 then (0.251, -1, 0)
      else if amps < 0.786 then (0.444, 0, -1)
      else if amps < 1.143 then (0.786, 1, 0)
      else if amps < 1.611 then (1.143, -1, -1)
      else if amps < 1.890 then (1.611, 0, 1)
      else if amps < 2.153 then (1.890, 1, -1)
      else if amps < 2.236 then (2.153, -1, 1)
      else (2.236, 1, 1) := by
  simp only [select, current_limit_states, select_loop, MIN_CURRENT_LIMIT,
    CURRENT_LIMIT_1, CURRENT_LIMIT_2, CURRENT_LIMIT_3, CURRENT_LIMIT_4, CURRENT_LIMIT_5,
    CURRENT_LIMIT_6, CURRENT_LIMIT_7, CURRENT_LIMIT_8, CURRENT_LIMIT_9]
  split_ifs <;> first | rfl | (exfalso; linarith)

/-- One fault-free, cool `monitor()` cycle succeeds and performs exactly the
accumulation updates. -/
lemma monitor_ok (s : MotorState) (t : ℚ) (ht : t ≤ TEMPERATURE_THRESHOLD) :
    monitor s false t =
      (none,
       { fault_triggered := s.fault_triggered,
         max_temperature := xmax (.fin t) s.max_temperature,
         min_temperature := xmin (.fin t) s.min_temperature,
         avg_temperature := s.avg_temperature + t,
         count_avg := s.count_avg + 1 }) := by
  simp [monitor, not_lt.mpr ht]

/-- A fault-free, cool run of `monitor()` cycles succeeds and folds the
accumulation updates over the samples. -/
lemma run_monitor_ok (ts : List ℚ) (s : MotorState)
    (h : ∀ x ∈ ts, x ≤ TEMPERATURE_THRESHOLD) :
    run_monitor s (ts.map (fun x => (false, x))) =
      (none,
       { fault_triggered := s.fault_triggered,
         max_temperature := ts.foldl (fun acc x => xmax (.fin x) acc) s.max_temperature,
         min_temperature := ts.foldl (fun acc x => xmin (.fin x) acc) s.min_temperature,
         avg_temperature := s.avg_temperature + ts.sum,
         count_avg := s.count_avg + ts.length }) := by
  induction ts generalizing s with
  | nil => simp [run_monitor]
  | cons t ts ih =>
    have ht : t ≤ TEMPERATURE_THRESHOLD := h t (List.mem_cons_self _ _)
    have ih' := fun s' => ih s' (fun x hx => h x (List.mem_cons_of_mem _ hx))
    simp only [List.map_cons, run_monitor, monitor_ok _ _ ht, Option.isSome_none,
      Bool.false_eq_true, if_false, ih', List.foldl_cons, List.sum_cons, List.length_cons,
      Prod.mk.injEq, MotorState.mk.injEq]
    exact ⟨trivial, trivial, trivial, trivial, by ring, by omega⟩

end DualMotorModule

namespace QuadServoRegModule

/-- One cool `monitor()` cycle of a non-halting module succeeds, logs the
transition warnings, and performs exactly the accumulation updates. -/
lemma servo_monitor_ok (s : ServoState) (p : Bool) (t : ℚ) (ht : t ≤ TEMPERATURE_THRESHOLD) :
    monitor false s p t =
      (none,
       (if s.last_pgood = true ∧ p ≠ true then [Warning.powerNotGood]
        else if s.last_pgood ≠ true ∧ p = true then [Warning.powerGood]
        else []),
       { last_pgood := p,
         power_good_throughout := s.power_good_throughout && p,
         max_temperature := xmax (.fin t) s.max_temperature,
         min_temperature := xmin (.fin t) s.min_temperature,
         avg_temperature := s.avg_temperature + t,
         count_avg := s.count_avg + 1 }) := by
  simp [monitor, not_lt.mpr ht]

/-- A cool run of non-halting `monitor()` cycles succeeds, ANDs the
power-good observations and folds the accumulation updates. -/
lemma run_monitor_state (inputs : List (Bool × ℚ)) (s : ServoState)
    (h : ∀ i ∈ inputs, i.2 ≤ TEMPERATURE_THRESHOLD) :
    (run_monitor false s inputs).1 = none ∧
    (run_monitor false s inputs).2.2 =
      { last_pgood := inputs.foldl (fun _ i => i.1) s.last_pgood,
        power_good_throughout := s.power_good_throughout && inputs.all (fun i => i.1),
        max_temperature :=
          (inputs.map (fun i => i.2)).foldl (fun acc x => xmax (.fin x) acc) s.max_temperature,
        min_temperature :=
          (inputs.map (fun i => i.2)).foldl (fun acc x => xmin (.fin x) acc) s.min_temperature,
        avg_temperature := s.avg_temperature + (inputs.map (fun i => i.2)).sum,
        count_avg := s.count_avg + inputs.length } := by
  induction inputs generalizing s with
  | nil => exact ⟨rfl, by simp [run_monitor]⟩
  | cons i rest ih =>
    obtain ⟨p, t⟩ := i
    have ht : t ≤ TEMPERATURE_THRESHOLD := h (p, t) (List.mem_cons_self _ _)
    obtain ⟨h1, h2⟩ := ih
      { last_pgood := p,
        power_good_throughout := s.power_good_throughout && p,
        max_temperature := xmax (.fin t) s.max_temperature,
        min_temperature := xmin (.fin t) s.min_temperature,
        avg_temperature := s.avg_temperature + t,
        count_avg := s.count_avg + 1 }
      (fun j hj => h j (List.mem_cons_of_mem _ hj))
    constructor
    · simp only [run_monitor, servo_monitor_ok s p t ht]
      exact h1
    · simp only [run_monitor, servo_monitor_ok s p t ht, h2, List.foldl_cons, List.map_cons,
        List.all_cons, List.sum_cons, List.length_cons, ServoState.mk.injEq]
      refine ⟨trivial, by simp [Bool.and_assoc], trivial, trivial, by ring, by omega⟩

/-- A cool run of non-halting `monitor()` cycles logs exactly one warning
per power-good transition. -/
lemma run_monitor_warns (inputs : List (Bool × ℚ)) (s : ServoState)
    (h : ∀ i ∈ inputs, i.2 ≤ TEMPERATURE_THRESHOLD) :
    (run_monitor false s inputs).2.1.length =
      countTransitions s.last_pgood (inputs.map (fun i => i.1)) := by
  induction inputs generalizing s with
  | nil => rfl
  | cons i rest ih =>
    obtain ⟨p, t⟩ := i
    have ht : t ≤ TEMPERATURE_THRESHOLD := h (p, t) (List.mem_cons_self _ _)
    have ihr := ih
      { last_pgood := p,
        power_good_throughout := s.power_good_throughout && p,
        max_temperature := xmax (.fin t) s.max_temperature,
        min_temperature := xmin (.fin t) s.min_temperature,
        avg_temperature := s.avg_temperature + t,
        count_avg := s.count_avg + 1 }
      (fun j hj => h j (List.mem_cons_of_mem _ hj))
    simp only [run_monitor, servo_monitor_ok s p t ht, List.map_cons, countTransitions,
      List.length_append, ihr]
    cases hp : s.last_pgood <;> cases p <;> simp [hp]

end QuadServoRegModule

/-! The claims. -/

set_option maxHeartbeats 2000000 in
/-- C1: For every input `amps`, the Threshold Selector of `set_current_limit`
chooses from the fixed nine-entry ascending table and never fails: below the
minimum entry it returns the minimum entry and its pin-state pair; at or
above the maximum entry it returns the maximum entry; at a value exactly
equal to a table entry it returns that exact entry; and whenever `amps` is
at least the minimum entry it returns the greatest entry whose limit does
not exceed `amps`. -/
theorem c1_selector_clamps_and_picks_greatest (amps : ℚ) :
    DualMotorModule.select amps ∈ DualMotorModule.current_limit_states ∧
    (amps < DualMotorModule.MIN_CURRENT_LIMIT →
      DualMotorModule.select amps = (DualMotorModule.CURRENT_LIMIT_1, 0, 0)) ∧
    (DualMotorModule.MAX_CURRENT_LIMIT ≤ amps →
      DualMotorModule.select amps = (DualMotorModule.CURRENT_LIMIT_9, 1, 1)) ∧
    (∀ e ∈ DualMotorModule.current_limit_states, e.1 = amps →
      DualMotorModule.select amps = e) ∧
    (DualMotorModule.MIN_CURRENT_LIMIT ≤ amps →
      (DualMotorModule.select amps).1 ≤ amps ∧
      ∀ e ∈ DualMotorModule.current_limit_states, e.1 ≤ amps →
        e.1 ≤ (DualMotorModule.select amps).1) := by
  refine ⟨?_, ?_, ?_, ?_, ?_⟩
  · rw [DualMotorModule.select_eq]
    split_ifs <;> simp [DualMotorModule.current_limit_states]
  · intro h
    simp only [DualMotorModule.MIN_CURRENT_LIMIT, DualMotorModule.CURRENT_LIMIT_1] at h ⊢
    rw [DualMotorModule.select_eq, if_pos (by linarith)]
  · intro h
    simp only [DualMotorModule.MAX_CURRENT_LIMIT, DualMotorModule.CURRENT_LIMIT_9] at h ⊢
    rw [DualMotorModule.select_eq]
    split_ifs <;> first | rfl | (exfalso; linarith)
  · intro e he heq
    simp only [DualMotorModule.current_limit_states, List.mem_cons,
      List.not_mem_nil, or_false] at he
    rcases he with rfl | rfl | rfl | rfl | rfl | rfl | rfl | rfl | rfl <;>
      (subst heq; rw [DualMotorModule.select_eq]; norm_num)
  · intro h
    simp only [DualMotorModule.MIN_CURRENT_LIMIT, DualMotorModule.CURRENT_LIMIT_1] at h
    rw [DualMotorModule.select_eq]
    split_ifs <;>
      refine ⟨by dsimp only; linarith, ?_⟩ <;>
      · intro e he hle
        simp only [DualMotorModule.current_limit_states, List.mem_cons,
          List.not_mem_nil, or_false] at he
        rcases he with rfl | rfl | rfl | rfl | rfl | rfl | rfl | rfl | rfl <;>
          (dsimp only at hle ⊢; norm_num at hle ⊢ <;> linarith)

/-- C1 witness: the selector clamps low at 0.1 A, clamps high at 3 A, and
at 1 A returns a limit not exceeding 1 A. -/
theorem c1_witness :
    DualMotorModule.select 0.1 = (DualMotorModule.CURRENT_LIMIT_1, 0, 0) ∧
    DualMotorModule.select 3 = (DualMotorModule.CURRENT_LIMIT_9, 1, 1) ∧
    (DualMotorModule.select 1).1 ≤ 1 :=
  ⟨(c1_selector_clamps_and_picks_greatest 0.1).2.1 (by norm_num),
   (c1_selector_clamps_and_picks_greatest 3).2.2.1 (by norm_num),
   ((c1_selector_clamps_and_picks_greatest 1).2.2.2.2 (by norm_num)).1⟩

set_option maxHeartbeats 2000000 in
/-- C5: The Threshold Selector is monotone: `a ≤ b` implies the limit chosen
for `a` is at most the limit chosen for `b`. -/
theorem c5_selector_monotone (a b : ℚ) (hab : a ≤ b) :
    (DualMotorModule.select a).1 ≤ (DualMotorModule.select b).1 := by
  rw [DualMotorModule.select_eq, DualMotorModule.select_eq]
  split_ifs <;> dsimp only <;> linarith

/-- C5 witness: monotonicity at the concrete pair 1 A ≤ 2 A. -/
theorem c5_witness : (DualMotorModule.select 1).1 ≤ (DualMotorModule.select 2).1 :=
  c5_selector_monotone 1 2 (by norm_num)

/-- C2 counterexample: from a cleared interval state, a `monitor()` cycle
observing `fault = true` raises `FaultError`, yet a subsequent
`get_readings()` still reports `Fault = false` — the fault observation was
not recorded in the accumulator before the raise, contrary to the claim. -/
theorem c2_counterexample :
    (DualMotorModule.monitor
        (DualMotorModule.clear_readings ⟨false, .ninf, .pinf, 0, 0⟩) true 25).1 =
      some MonitorError.faultError ∧
    (DualMotorModule.get_readings
        (DualMotorModule.monitor
          (DualMotorModule.clear_readings ⟨false, .ninf, .pinf, 0, 0⟩) true 25).2).fault =
      false :=
  ⟨rfl, rfl⟩

/-- C2 amended: a `monitor()` cycle observing `fault = true` raises
`FaultError` before the accumulation line, so `monitor()` never changes the
`Fault` flag at all: subsequent `get_readings()` report the flag exactly as
it was before the call (hence false for the whole interval after
`clear_readings()`), regardless of fault observations. -/
theorem c2_amended_fault_flag_never_set (s : DualMotorModule.MotorState) (f : Bool) (t : ℚ) :
    (DualMotorModule.monitor s true t).1 = some MonitorError.faultError ∧
    (DualMotorModule.get_readings (DualMotorModule.monitor s f t).2).fault =
      (DualMotorModule.get_readings s).fault := by
  refine ⟨rfl, ?_⟩
  cases f with
  | true => rfl
  | false =>
    simp only [DualMotorModule.monitor, DualMotorModule.get_readings]
    split_ifs <;> simp

/-- C3: starting from a cleared state, `N ≥ 1` fault-free `monitor()` cycles
with temperatures at or below the module threshold, followed by one
`process_readings()`, make `get_readings()` report the average, maximum and
minimum of the observed temperatures — for the dual-motor module and for the
quad-servo regulated module. -/
theorem c3_process_readings_statistics (s0 : DualMotorModule.MotorState)
    (u0 : QuadServoRegModule.ServoState) (t : ℚ) (ts : List ℚ) (u : ℚ) (us : List ℚ)
    (hm : ∀ x ∈ t :: ts, x ≤ DualMotorModule.TEMPERATURE_THRESHOLD)
    (hs : ∀ x ∈ u :: us, x ≤ QuadServoRegModule.TEMPERATURE_THRESHOLD) :
    (DualMotorModule.run_monitor (DualMotorModule.clear_readings s0)
        ((t :: ts).map (fun x => (false, x)))).1 = none ∧
    DualMotorModule.get_readings
        (DualMotorModule.process_readings
          (DualMotorModule.run_monitor (DualMotorModule.clear_readings s0)
            ((t :: ts).map (fun x => (false, x)))).2) =
      { fault := false,
        t_max := .fin (ts.foldl max t),
        t_min := .fin (ts.foldl min t),
        t_avg := (t :: ts).sum / ((t :: ts).length : ℚ) } ∧
    (QuadServoRegModule.run_monitor false (QuadServoRegModule.clear_readings u0)
        ((u :: us).map (fun x => (true, x)))).1 = none ∧
    QuadServoRegModule.get_readings
        (QuadServoRegModule.process_readings
          (QuadServoRegModule.run_monitor false (QuadServoRegModule.clear_readings u0)
            ((u :: us).map (fun x => (true, x)))).2.2) =
      { pgood := true,
        t_max := .fin (us.foldl max u),
        t_min := .fin (us.foldl min u),
        t_avg := (u :: us).sum / ((u :: us).length : ℚ) } := by
  have hrun := DualMotorModule.run_monitor_ok (t :: ts) (DualMotorModule.clear_readings s0) hm
  have hserv := QuadServoRegModule.run_monitor_state ((u :: us).map (fun x => (true, x)))
    (QuadServoRegModule.clear_readings u0)
    (by
      intro i hi
      simp only [List.mem_map] at hi
      obtain ⟨x, hx, rfl⟩ := hi
      exact hs x hx)
  refine ⟨by rw [hrun], ?_, hserv.1, ?_⟩
  · rw [hrun]
    simp only [DualMotorModule.clear_readings, DualMotorModule.process_readings,
      DualMotorModule.get_readings, foldl_xmax_ninf, foldl_xmin_pinf, zero_add,
      List.length_cons]
    rw [if_pos (Nat.succ_pos _)]
  · rw [hserv.2]
    simp only [QuadServoRegModule.clear_readings, QuadServoRegModule.process_readings,
      QuadServoRegModule.get_readings, List.map_map, Function.comp, List.map_cons,
      foldl_xmax_ninf, foldl_xmin_pinf, zero_add, List.length_cons, List.length_map]
    rw [if_pos (Nat.succ_pos _)]
    simp [QuadServoRegModule.Readings.mk.injEq, List.all_map]

/-- C3 witness: three dual-motor samples 10, 20, 30 °C and two servo samples
15, 25 °C produce the expected aggregate readings. -/
theorem c3_witness :
    (DualMotorModule.run_monitor (DualMotorModule.clear_readings ⟨false, .ninf, .pinf, 0, 0⟩)
        (([10, 20, 30] : List ℚ).map (fun x => (false, x)))).1 = none ∧
    DualMotorModule.get_readings
        (DualMotorModule.process_readings
          (DualMotorModule.run_monitor (DualMotorModule.clear_readings ⟨false, .ninf, .pinf, 0, 0⟩)
            (([10, 20, 30] : List ℚ).map (fun x => (false, x)))).2) =
      { fault := false,
        t_max := .fin (([20, 30] : List ℚ).foldl max 10),
        t_min := .fin (([20, 30] : List ℚ).foldl min 10),
        t_avg := ([10, 20, 30] : List ℚ).sum / (([10, 20, 30] : List ℚ).length : ℚ) } ∧
    (QuadServoRegModule.run_monitor false
        (QuadServoRegModule.clear_readings ⟨false, true, .ninf, .pinf, 0, 0⟩)
        (([15, 25] : List ℚ).map (fun x => (true, x)))).1 = none ∧
    QuadServoRegModule.get_readings
        (QuadServoRegModule.process_readings
          (QuadServoRegModule.run_monitor false
            (QuadServoRegModule.clear_readings ⟨false, true, .ninf, .pinf, 0, 0⟩)
            (([15, 25] : List ℚ).map (fun x => (true, x)))).2.2) =
      { pgood := true,
        t_max := .fin (([25] : List ℚ).foldl max 15),
        t_min := .fin (([25] : List ℚ).foldl min 15),
        t_avg := ([15, 25] : List ℚ).sum / (([15, 25] : List ℚ).length : ℚ) } :=
  c3_process_readings_statistics ⟨false, .ninf, .pinf, 0, 0⟩ ⟨false, true, .ninf, .pinf, 0, 0⟩
    10 [20, 30] 15 [25] (by decide) (by decide)

/-- C4: `set_current_limit` while enabled raises the `InvalidState`-class
error and leaves the stored limit and pin states unchanged; while disabled
it succeeds and stores the limit and pin states chosen by the monotone
clamp selection. -/
theorem c4_set_current_limit_guard (m : DualMotorModule.ModuleConfig) (amps : ℚ) :
    (m.enabled = true →
      DualMotorModule.set_current_limit m amps = (some ConfigError.invalidState, m)) ∧
    (m.enabled = false →
      (DualMotorModule.set_current_limit m amps).1 = none ∧
      (DualMotorModule.set_current_limit m amps).2.current_limit =
        (DualMotorModule.select amps).1 ∧
      (DualMotorModule.set_current_limit m amps).2.vref1 =
        DualMotorModule.pin_mode_for (DualMotorModule.select amps).2.1 ∧
      (DualMotorModule.set_current_limit m amps).2.vref2 =
        DualMotorModule.pin_mode_for (DualMotorModule.select amps).2.2) := by
  constructor
  · intro h
    simp [DualMotorModule.set_current_limit, h]
  · intro h
    simp [DualMotorModule.set_current_limit, h]

/-- C4 witness: at 1 A, an enabled module rejects the change unchanged and a
disabled module stores the selected limit. -/
theorem c4_witness :
    DualMotorModule.set_current_limit ⟨true, 0.444, .outLow, .outLow⟩ 1 =
      (some ConfigError.invalidState, ⟨true, 0.444, .outLow, .outLow⟩) ∧
    (DualMotorModule.set_current_limit ⟨false, 0.444, .outLow, .outLow⟩ 1).1 = none ∧
    (DualMotorModule.set_current_limit ⟨false, 0.444, .outLow, .outLow⟩ 1).2.current_limit =
      (DualMotorModule.select 1).1 :=
  ⟨(c4_set_current_limit_guard ⟨true, 0.444, .outLow, .outLow⟩ 1).1 rfl,
   ((c4_set_current_limit_guard ⟨false, 0.444, .outLow, .outLow⟩ 1).2 rfl).1,
   ((c4_set_current_limit_guard ⟨false, 0.444, .outLow, .outLow⟩ 1).2 rfl).2.1⟩

/-- C6: for the status-style module, across an interval of non-fatal cycles
started by `clear_readings()`, `get_readings()["PGood"]` equals the
conjunction of all per-cycle power-good observations: it is true only if
every cycle observed power-good, and one false observation makes it false
for the whole interval. -/
theorem c6_pgood_and_aggregation (s0 : QuadServoRegModule.ServoState)
    (inputs : List (Bool × ℚ))
    (h : ∀ i ∈ inputs, i.2 ≤ QuadServoRegModule.TEMPERATURE_THRESHOLD) :
    (QuadServoRegModule.run_monitor false
        (QuadServoRegModule.clear_readings s0) inputs).1 = none ∧
    (QuadServoRegModule.get_readings
        (QuadServoRegModule.run_monitor false
          (QuadServoRegModule.clear_readings s0) inputs).2.2).pgood =
      inputs.all (fun i => i.1) := by
  obtain ⟨h1, h2⟩ :=
    QuadServoRegModule.run_monitor_state inputs (QuadServoRegModule.clear_readings s0) h
  refine ⟨h1, ?_⟩
  simp only [QuadServoRegModule.get_readings, h2]
  simp [QuadServoRegModule.clear_readings]

/-- C6 witness: the cycle sequence good, bad, good yields `PGood = false`. -/
theorem c6_witness :
    (QuadServoRegModule.run_monitor false
        (QuadServoRegModule.clear_readings ⟨false, true, .ninf, .pinf, 0, 0⟩)
        [(true, 20), (false, 30), (true, 25)]).1 = none ∧
    (QuadServoRegModule.get_readings
        (QuadServoRegModule.run_monitor false
          (QuadServoRegModule.clear_readings ⟨false, true, .ninf, .pinf, 0, 0⟩)
          [(true, 20), (false, 30), (true, 25)]).2.2).pgood =
      ([(true, 20), (false, 30), (true, 25)] : List (Bool × ℚ)).all (fun i => i.1) :=
  c6_pgood_and_aggregation ⟨false, true, .ninf, .pinf, 0, 0⟩
    [(true, 20), (false, 30), (true, 25)] (by decide)

/-- C7: `process_readings()` is idempotent for both modules: a second call
with no intervening `monitor()` leaves the whole aggregator state exactly as
after the first call, because the first call resets the sample count to 0. -/
theorem c7_process_readings_idempotent (sm : DualMotorModule.MotorState)
    (ss : QuadServoRegModule.ServoState) :
    DualMotorModule.process_readings (DualMotorModule.process_readings sm) =
      DualMotorModule.process_readings sm ∧
    QuadServoRegModule.process_readings (QuadServoRegModule.process_readings ss) =
      QuadServoRegModule.process_readings ss := by
  constructor
  · by_cases h : 0 < sm.count_avg <;> simp [DualMotorModule.process_readings, h]
  · by_cases h : 0 < ss.count_avg <;> simp [QuadServoRegModule.process_readings, h]

/-- C8: across any sequence of non-fatal `monitor()` cycles of the
status-style module, the number of power-good warnings logged equals the
number of good-to-bad or bad-to-good transitions of the observed condition
relative to the previous cycle's observation — exactly one warning per
transition, none while the condition persists. -/
theorem c8_edge_warning_count (s0 : QuadServoRegModule.ServoState)
    (inputs : List (Bool × ℚ))
    (h : ∀ i ∈ inputs, i.2 ≤ QuadServoRegModule.TEMPERATURE_THRESHOLD) :
    (QuadServoRegModule.run_monitor false s0 inputs).2.1.length =
      QuadServoRegModule.countTransitions s0.last_pgood (inputs.map (fun i => i.1)) :=
  QuadServoRegModule.run_monitor_warns inputs s0 h

/-- C8 witness: from a bad previous observation, the cycle sequence
bad, bad, good, good logs exactly one warning (the single bad-to-good
transition). -/
theorem c8_witness :
    (QuadServoRegModule.run_monitor false ⟨false, true, .ninf, .pinf, 0, 0⟩
        [(false, 20), (false, 25), (true, 30), (true, 10)]).2.1.length =
      QuadServoRegModule.countTransitions
        ((⟨false, true, .ninf, .pinf, 0, 0⟩ : QuadServoRegModule.ServoState).last_pgood)
        (([(false, 20), (false, 25), (true, 30), (true, 10)] : List (Bool × ℚ)).map
          (fun i => i.1)) :=
  c8_edge_warning_count ⟨false, true, .ninf, .pinf, 0, 0⟩
    [(false, 20), (false, 25), (true, 30), (true, 10)] (by decide)

/-- C9: immediately after `clear_readings()`, `get_readings()` returns the
interval-start neutral defaults: `Fault = false` for the fault-style module,
`PGood = true` for the status-style module, `T_max = -inf`, `T_min = +inf`,
`T_avg = 0`; the running sum and sample count are 0. -/
theorem c9_clear_readings_defaults (sm : DualMotorModule.MotorState)
    (ss : QuadServoRegModule.ServoState) :
    DualMotorModule.get_readings (DualMotorModule.clear_readings sm) =
      { fault := false, t_max := .ninf, t_min := .pinf, t_avg := 0 } ∧
    (DualMotorModule.clear_readings sm).count_avg = 0 ∧
    QuadServoRegModule.get_readings (QuadServoRegModule.clear_readings ss) =
      { pgood := true, t_max := .ninf, t_min := .pinf, t_avg := 0 } ∧
    (QuadServoRegModule.clear_readings ss).count_avg = 0 :=
  ⟨rfl, rfl, rfl, rfl⟩

/-- C10: whenever `monitor()` raises (`FaultError` or
`OverTemperatureError`), the entire aggregator state is exactly as before
the call, and no warning is logged: all fatal checks precede every state
update, for both modules. -/
theorem c10_monitor_atomic_on_raise (sm : DualMotorModule.MotorState) (f : Bool) (t : ℚ)
    (ss : QuadServoRegModule.ServoState) (halt p : Bool) (u : ℚ) :
    ((DualMotorModule.monitor sm f t).1.isSome = true →
      (DualMotorModule.monitor sm f t).2 = sm) ∧
    ((QuadServoRegModule.monitor halt ss p u).1.isSome = true →
      (QuadServoRegModule.monitor halt ss p u).2.2 = ss ∧
      (QuadServoRegModule.monitor halt ss p u).2.1 = []) := by
  constructor
  · intro h
    simp only [DualMotorModule.monitor] at h ⊢
    split_ifs at h ⊢ <;> simp_all
  · intro h
    simp only [QuadServoRegModule.monitor] at h ⊢
    split_ifs at h ⊢ <;> simp_all

/-- C10 witness: a fault-raising dual-motor cycle and a halting
power-not-good servo cycle both leave their cleared starting states
untouched. -/
theorem c10_witness :
    (DualMotorModule.monitor ⟨false, .ninf, .pinf, 0, 0⟩ true 25).2 =
      (⟨false, .ninf, .pinf, 0, 0⟩ : DualMotorModule.MotorState) ∧
    (QuadServoRegModule.monitor true ⟨false, true, .ninf, .pinf, 0, 0⟩ false 25).2.2 =
      (⟨false, true, .ninf, .pinf, 0, 0⟩ : QuadServoRegModule.ServoState) :=
  ⟨(c10_monitor_atomic_on_raise ⟨false, .ninf, .pinf, 0, 0⟩ true 25
      ⟨false, true, .ninf, .pinf, 0, 0⟩ true false 25).1 rfl,
   ((c10_monitor_atomic_on_raise ⟨false, .ninf, .pinf, 0, 0⟩ true 25
      ⟨false, true, .ninf, .pinf, 0, 0⟩ true false 25).2 rfl).1⟩

end Yukon
